import Mathlib

/-!
Shallow embedding of `src/server/librarian_server/file.py` of the librarian
repository: the File / FileInstance / FileEvent data model, the catalog
registration and metadata-inference logic, and the two RPC endpoints
(create_file_event, locate_file_instance).

Modelling conventions:
* The database is a `DBState` record of row lists; a primary-key lookup is
  `List.find?` on the key column.
* The code rounds every naive Python datetime to whole seconds, so a datetime
  value is encoded here by the integer `calendar.timegm (dt.timetuple ())`.
  Under this encoding `File.create_time_unix` is the identity and
  `datetime.datetime.fromtimestamp` adds the UTC offset of the host timezone.
* `File.get_inferring_info` receives two database snapshots: the contents seen
  by its in-transaction queries and the contents against which its final
  commit checks the declared unique keys. The two snapshots make the race
  window between the lookup (file.py line 106) and the commit (line 136)
  expressible; a sequential caller passes the same state twice.
* Error kinds follow the taxonomy of the specification.
-/

deriving instance DecidableEq for Except

namespace Librarian

/-- Error kinds of the embedded operations. The Python code raises `ValueError`
for constructor validation, `ServerError` for probe failures and for RPC
lookups of unknown records, and relies on the database engine for unique-key
and foreign-key violations; the constructors here follow the taxonomy of the
specification (§7): validation, conflict, notFound, metadata, and the
missing-required-argument failure of `required_arg`. -/
inductive LibError where
  | validation : String → LibError
  | conflict : String → LibError
  | notFound : String → LibError
  | metadata : String → LibError
  | missingArg : String → LibError
  deriving DecidableEq

/-- Embeds the Python membership test `'/' in name` for the single character
slash. -/
def hasSlash (s : String) : Bool :=
  s.data.any (fun c => c = '/')

/-- Lower-case ASCII hexadecimal digit test: `0`-`9` or `a`-`f`. -/
def isLowerHexDigit (c : Char) : Bool :=
  (48 ≤ c.toNat && c.toNat ≤ 57) || (97 ≤ c.toNat && c.toNat ≤ 102)

/-- Embeds Python `str.lower` on the ASCII range (md5 digests are ASCII). -/
def str_lower (s : String) : String :=
  String.mk (s.data.map Char.toLower)

/-- Decides whether an md5 digest normalizes (lower-cases) to a valid
32-character hexadecimal digest. -/
def md5ValidB (md5 : String) : Bool :=
  (str_lower md5).data.length == 32 && (str_lower md5).data.all isLowerHexDigit

/-- Modelled from the spec: `hera_librarian.utils.normalize_and_validate_md5`
(the client-side utils module of this repository is not under src/). Per §3 an
md5 is a normalized 32-character lowercase hexadecimal digest, a digest not
reducible to 32 hex characters after normalization is a validation error, and
Scenario A of §8 shows normalization lower-casing an upper-case digest. -/
def normalize_and_validate_md5 (md5 : String) : Except LibError String :=
  if md5ValidB md5 then pure (str_lower md5)
  else throw (.validation ("illegal MD5 digest \"" ++ md5 ++ "\""))

/-- Embeds Python `os.path.basename`: everything after the last slash. -/
def os_path_basename (p : String) : String :=
  String.mk ((p.data.reverse.takeWhile (fun c => c ≠ '/')).reverse)

/-- Embeds Python `os.path.dirname`: everything before the last slash, with
trailing slashes stripped unless that head consists only of slashes. -/
def os_path_dirname (p : String) : String :=
  let tail := (p.data.reverse.takeWhile (fun c => c ≠ '/')).reverse
  let head := p.data.take (p.data.length - tail.length)
  if head ≠ [] ∧ ¬ head.all (fun c => c = '/') then
    String.mk ((head.reverse.dropWhile (fun c => c = '/')).reverse)
  else
    String.mk head

/-- Embeds Python `posixpath.join` on two components. -/
def os_path_join (a b : String) : String :=
  if b.data.head? = some '/' then b
  else if a.data = [] ∨ a.data.getLast? = some '/' then a ++ b
  else a ++ "/" ++ b

/-- Modelled from the spec: the Store reference of §2/§6
(src/server/librarian_server/store.py is not under src/): a storage node with
an id, a name, a path prefix and a remote host. The availability flag and the
optional public URL of a store are not consumed by the operations embedded
here. -/
structure Store where
  id : Int
  name : String
  path_prefix : String
  ssh_host : String
  deriving DecidableEq

/-- Modelled from the spec: the Observation reference of §2/§6
(src/server/librarian_server/observation.py is not under src/): identified by
an integer obsid; `get_inferring_info` constructs one by
`Observation (obsid, start_jd, None, lst)`. The astronomical time fields are
opaque metadata (GLOSSARY) carried here as integers and never computed with. -/
structure Observation where
  obsid : Int
  start_jd : Int
  stop_jd : Option Int
  lst : Int
  deriving DecidableEq

/-- Row of the `file` table (file.py lines 42-54): `name` is the primary key;
`create_time` is a whole-second datetime encoded as its timegm integer. -/
structure File where
  name : String
  type : String
  create_time : Int
  obsid : Int
  size : Int
  md5 : String
  source : String
  deriving DecidableEq

/-- Row of the `file_instance` table (file.py lines 223-229): composite
primary key `(store, parent_dirs, name)`; `name` is a foreign key into
`file.name`. -/
structure FileInstance where
  store : Int
  parent_dirs : String
  name : String
  deriving DecidableEq

/-- Row of the `file_event` table (file.py lines 268-275). The
database-assigned integer id column is omitted; no embedded operation reads
it. -/
structure FileEvent where
  name : String
  time : Int
  type : String
  payload : String
  deriving DecidableEq

/-- Contents of the database: one list of rows per table, plus the store
registry. -/
structure DBState where
  files : List File
  observations : List Observation
  instances : List FileInstance
  events : List FileEvent
  stores : List Store
  deriving DecidableEq

/-- Primary-key lookup `File.query.get (name)`. -/
def findFile (db : DBState) (name : String) : Option File :=
  db.files.find? (fun f => f.name == name)

/-- Primary-key lookup `Observation.query.get (obsid)`. -/
def findObs (db : DBState) (obsid : Int) : Option Observation :=
  db.observations.find? (fun o => o.obsid == obsid)

/-- Primary-key lookup of a store row, standing for the ORM relationship
`store_object`. -/
def findStore (db : DBState) (id : Int) : Option Store :=
  db.stores.find? (fun s => s.id == id)

/-- Modelled from the spec: `required_arg` of `webutil`
(src/server/librarian_server/webutil.py is not under src/): fetch a required
key from a record of optional fields, failing when the key is absent; the
expected-type argument of the Python helper is encoded by the type of the
field. -/
def required_arg {α : Type} (v : Option α) (key : String) : Except LibError α :=
  match v with
  | some x => pure x
  | none => throw (.missingArg key)

/-- Embeds `File._validate` (file.py lines 76-88). -/
def File._validate (f : File) : Except LibError Unit := do
  if hasSlash f.name then
    throw (.validation ("illegal file name \"" ++ f.name ++ "\": names may not contain \"/\""))
  else
    let _ ← normalize_and_validate_md5 f.md5
    if ¬ (0 ≤ f.size) then
      throw (.validation ("illegal size " ++ toString f.size ++ " of file \"" ++ f.name ++ "\": negative"))
    else
      pure ()

/-- Embeds `File.__init__` (file.py lines 56-73): the md5 is normalized and
validated, the fields are assigned, `_validate` checks the invariants. When no
explicit `create_time` is given the code uses `utcnow` truncated to whole
seconds, passed here as `now`. -/
def File.init (name ty : String) (obsid : Int) (source : String) (size : Int)
    (md5 : String) (now : Int) (create_time? : Option Int) : Except LibError File := do
  let create_time := create_time?.getD now
  let md5n ← normalize_and_validate_md5 md5
  let f : File := ⟨name, ty, create_time, obsid, size, md5n, source⟩
  File._validate f
  pure f

/-- The catalog registration operation of §4.1: `File.__init__` followed by
`db.session.add` and a commit, where the commit enforces the primary-key
constraint on `file.name` declared at file.py line 44 (a duplicate key is the
ConflictError of §7). -/
def register (db : DBState) (name ty : String) (obsid : Int) (source : String)
    (size : Int) (md5 : String) (now : Int) (create_time? : Option Int) :
    Except LibError (File × DBState) := do
  let f ← File.init name ty obsid source size md5 now create_time?
  if (findFile db name).isSome then
    throw (.conflict ("duplicate key value for file.name: " ++ name))
  else
    pure (f, ⟨f :: db.files, db.observations, db.instances, db.events, db.stores⟩)

/-- The metadata record returned by the store probe or supplied by the caller
(§6): size, md5, type, lst, obsid and optionally start_jd; every field is
optional because `required_arg` pulls each one from a dynamic record. -/
structure Info where
  size : Option Int
  md5 : Option String
  type : Option String
  lst : Option Int
  obsid : Option Int
  start_jd : Option Int
  deriving DecidableEq

/-- Embeds `File.get_inferring_info` (file.py lines 91-137). `dbq` is the
database contents seen by the in-transaction queries (the `File.query.get` at
line 106 and the `Observation.query.get` at line 128); `dbc` is the contents
against which the final `db.session.commit ()` at line 136 checks the declared
unique keys, the pending Observation row (added first, line 132) before the
pending File row (line 135). A sequential caller passes the same state twice; a
caller that lost a creation race passes the state left by the winner as `dbc`.
`probe` is the outcome of the external `store.get_info_for_path (store_path)`
metadata probe of §6, consulted only when `info?` is absent. -/
def File.get_inferring_info (dbq dbc : DBState) (store : Store)
    (store_path source_name : String) (info? : Option Info)
    (probe : Except String Info) (now : Int) : Except LibError (File × DBState) := do
  let _parent_dirs := os_path_dirname store_path
  let name := os_path_basename store_path
  match findFile dbq name with
  | some prev => pure (prev, dbc)
  | none => do
    let info ← match info? with
      | some i => pure i
      | none =>
        match probe with
        | .ok i => pure i
        | .error e =>
          throw (.metadata ("cannot register " ++ store.name ++ ":" ++ store_path ++ ": " ++ e))
    let size ← required_arg info.size "size"
    let md5 ← required_arg info.md5 "md5"
    let ty ← required_arg info.type "type"
    let lst ← required_arg info.lst "lst"
    let obsid ← required_arg info.obsid "obsid"
    let newObs? ← match findObs dbq obsid with
      | some _ => pure (none : Option Observation)
      | none => do
        let start_jd ← required_arg info.start_jd "start_jd"
        pure (some ⟨obsid, start_jd, none, lst⟩)
    let f ← File.init name ty obsid source_name size md5 now none
    match newObs? with
    | some o =>
      if (findObs dbc o.obsid).isSome then
        throw (.conflict ("duplicate key value for observation.obsid: " ++ toString o.obsid))
      else if (findFile dbc name).isSome then
        throw (.conflict ("duplicate key value for file.name: " ++ name))
      else
        pure (f, ⟨f :: dbc.files, o :: dbc.observations, dbc.instances, dbc.events, dbc.stores⟩)
    | none =>
      if (findFile dbc name).isSome then
        throw (.conflict ("duplicate key value for file.name: " ++ name))
      else
        pure (f, ⟨f :: dbc.files, dbc.observations, dbc.instances, dbc.events, dbc.stores⟩)

/-- Embeds `File.create_time_unix` (file.py lines 140-143):
`calendar.timegm (create_time.timetuple ())`, the identity under the timegm
encoding of whole-second naive datetimes. -/
def File.create_time_unix (f : File) : Int := f.create_time

/-- Record produced by `File.to_dict`; the fields are optional because
`File.from_dict` reads them back through `required_arg`. -/
structure FileRecord where
  name : Option String
  type : Option String
  create_time : Option Int
  obsid : Option Int
  size : Option Int
  md5 : Option String
  deriving DecidableEq

/-- Embeds `File.to_dict` (file.py lines 146-155): every field except
`source`. -/
def File.to_dict (f : File) : FileRecord :=
  ⟨some f.name, some f.type, some (File.create_time_unix f), some f.obsid,
   some f.size, some f.md5⟩

/-- Embeds `datetime.datetime.fromtimestamp`: the local wall-clock time at the
given Unix time. Under the timegm encoding of naive datetimes this adds the
UTC offset (in seconds) of the host timezone; the offset is 0 exactly on a
host running in UTC. -/
def datetime_fromtimestamp (tzOffset t : Int) : Int := t + tzOffset

/-- Embeds `File.from_dict` (file.py lines 158-166). The `now` argument of the
constructor is irrelevant here because an explicit `create_time` is always
passed; it is fixed to 0. -/
def File.from_dict (tzOffset : Int) (source : String) (info : FileRecord) :
    Except LibError File := do
  let name ← required_arg info.name "name"
  let ty ← required_arg info.type "type"
  let ctime_unix ← required_arg info.create_time "create_time"
  let obsid ← required_arg info.obsid "obsid"
  let size ← required_arg info.size "size"
  let md5 ← required_arg info.md5 "md5"
  File.init name ty obsid source size md5 0 (some (datetime_fromtimestamp tzOffset ctime_unix))

/-- JSON scalar values as they occur in event payloads. -/
inductive JVal where
  | jstr : String → JVal
  | jint : Int → JVal
  | jbool : Bool → JVal
  | jnull : JVal

/-- Four lower-case hexadecimal digits, zero-padded. -/
def hex4 (n : Nat) : String :=
  let ds := Nat.toDigits 16 n
  String.mk (List.replicate (4 - ds.length) '0' ++ ds)

/-- Embeds the escaping of one character by Python `json.dumps` under its
default `ensure_ascii=True`: quote, backslash and the short control escapes;
u-escapes for the remaining control and all non-ASCII characters (astral
characters as a UTF-16 surrogate pair); everything else literal. -/
def jsonEscapeChar (c : Char) : String :=
  if c = '"' then "\\\""
  else if c = '\\' then "\\\\"
  else if c = '\n' then "\\n"
  else if c = '\r' then "\\r"
  else if c = '\t' then "\\t"
  else if c.toNat = 8 then "\\b"
  else if c.toNat = 12 then "\\f"
  else if c.toNat < 32 then "\\u" ++ hex4 c.toNat
  else if c.toNat < 128 then String.mk [c]
  else if c.toNat < 65536 then "\\u" ++ hex4 c.toNat
  else
    let n := c.toNat - 65536
    "\\u" ++ hex4 (55296 + n / 1024) ++ "\\u" ++ hex4 (56320 + n % 1024)

/-- JSON string literal: quoted, characters escaped. -/
def jsonQuote (s : String) : String :=
  "\"" ++ String.join (s.data.map jsonEscapeChar) ++ "\""

/-- Serialization of one JSON scalar. -/
def json_dumps_val : JVal → String
  | .jstr s => jsonQuote s
  | .jint n => toString n
  | .jbool b => if b then "true" else "false"
  | .jnull => "null"

/-- Embeds Python `json.dumps` on a flat object, with the default separators
(comma-space and colon-space) and `ensure_ascii=True`, under which the output
is ASCII and its character count equals its byte count. Keys are emitted in
list order; a Python dict iterates in an implementation-defined order, which
permutes members but never changes the serialized length. -/
def json_dumps (obj : List (String × JVal)) : String :=
  "\x7b" ++ String.intercalate ", "
    (obj.map (fun kv => jsonQuote kv.1 ++ ": " ++ json_dumps_val kv.2)) ++ "\x7d"

/-- Embeds `FileEvent.__init__` (file.py lines 277-284): name check, creation
time truncated to whole seconds (`now`), payload serialized by `json.dumps`.
Mirroring the source, no check of the documented 512-byte payload cap appears
here. -/
def FileEvent.init (name ty : String) (payload_struct : List (String × JVal))
    (now : Int) : Except LibError FileEvent :=
  if hasSlash name then
    throw (.validation ("illegal file name \"" ++ name ++ "\": names may not contain \"/\""))
  else
    pure ⟨name, now, ty, json_dumps payload_struct⟩

/-- Embeds `File.make_generic_event` (file.py lines 169-174). -/
def File.make_generic_event (f : File) (ty : String)
    (kwargs : List (String × JVal)) (now : Int) : Except LibError FileEvent :=
  FileEvent.init f.name ty kwargs now

/-- Embeds `FileInstance.__init__` (file.py lines 231-237). -/
def FileInstance.init (store_obj : Store) (parent_dirs name : String) :
    Except LibError FileInstance :=
  if hasSlash name then
    throw (.validation ("illegal file name \"" ++ name ++ "\": names may not contain \"/\""))
  else
    pure ⟨store_obj.id, parent_dirs, name⟩

/-- Embeds `FileInstance.store_path` (file.py lines 243-246). -/
def FileInstance.store_path (i : FileInstance) : String :=
  os_path_join i.parent_dirs i.name

/-- Embeds `FileInstance.full_path_on_store` (file.py lines 248-250); the
store row is passed explicitly in place of the ORM relationship
`store_object`. -/
def FileInstance.full_path_on_store (st : Store) (i : FileInstance) : String :=
  os_path_join (os_path_join ( Store.path_prefix st) i.parent_dirs) i.name

/-- Modelled in part from the spec: the createInstance operation of §4.2 is
`FileInstance.__init__` followed by persisting the row; persisting enforces
the foreign key from `file_instance.name` into `file.name` declared at file.py
line 227 (a missing File is the NotFoundError of §4.2) and the composite
primary key `(store, parent_dirs, name)` declared at lines 225-227. -/
def createInstance (db : DBState) (store_obj : Store) (parent_dirs name : String) :
    Except LibError (FileInstance × DBState) := do
  let inst ← FileInstance.init store_obj parent_dirs name
  if (findFile db name).isNone then
    throw (.notFound ("no file record named \"" ++ name ++ "\""))
  else if db.instances.any (fun i =>
      i.store == inst.store && i.parent_dirs == inst.parent_dirs && i.name == inst.name) then
    throw (.conflict "duplicate file instance key")
  else
    pure (inst, ⟨db.files, db.observations, inst :: db.instances, db.events, db.stores⟩)

/-- Arguments of the create_file_event RPC (file.py lines 302-304). -/
structure EventArgs where
  file_name : Option String
  type : Option String
  payload : Option (List (String × JVal))

/-- Embeds the `create_file_event` endpoint (file.py lines 294-313): required
arguments, a File lookup failing with the unknown-file error, then a generic
event built, added and committed. The empty success acknowledgment of the
endpoint is the ok case carrying the new database state. -/
def create_file_event (db : DBState) (args : EventArgs) (now : Int) :
    Except LibError DBState := do
  let file_name ← required_arg args.file_name "file_name"
  let ty ← required_arg args.type "type"
  let payload ← required_arg args.payload "payload"
  match findFile db file_name with
  | none => throw (.notFound ("no known file \"" ++ file_name ++ "\""))
  | some file => do
    let event ← File.make_generic_event file ty payload now
    pure ⟨db.files, db.observations, db.instances, db.events ++ [event], db.stores⟩

/-- Result record of the locate_file_instance RPC (file.py lines 329-334). -/
structure InstanceDescriptor where
  full_path_on_store : String
  store_name : String
  store_path : String
  store_ssh_host : String
  deriving DecidableEq

/-- Embeds the `locate_file_instance` endpoint (file.py lines 316-336): a File
lookup failing with the unknown-file error; then the first element of the
`file.instances` relationship — here the instances table filtered on the file
name, in table order (the source order is backend-defined, flagged in §9) — or
the distinct no-instances error; the store row of the chosen instance stands
for its `store_object` relationship. -/
def locate_file_instance (db : DBState) (args : Option String) :
    Except LibError InstanceDescriptor := do
  let file_name ← required_arg args "file_name"
  match findFile db file_name with
  | none => throw (.notFound ("no known file \"" ++ file_name ++ "\""))
  | some _file =>
    match db.instances.filter (fun i => i.name == file_name) with
    | [] => throw (.notFound ("no instances of file \"" ++ file_name ++ "\" on this librarian"))
    | inst :: _ =>
      match findStore db inst.store with
      | none => throw (.notFound "store row missing")
      | some st =>
        pure ⟨FileInstance.full_path_on_store st inst, st.name,
              FileInstance.store_path inst, st.ssh_host⟩

/-! Concrete fixtures used by witnesses and counterexamples. -/

/-- The empty database. -/
def db0 : DBState := ⟨[], [], [], [], []⟩

/-- File record produced by Scenario A of §8. -/
def fooFile : File :=
  ⟨"foo.uv", "uv", 100, 42, 1024, "d41d8cd98f00b204e9800998ecf8427e", "site1"⟩

/-- Database holding exactly `fooFile`. -/
def dbFoo : DBState := ⟨[fooFile], [], [], [], []⟩

/-- A store fixture. -/
def storeA : Store := ⟨1, "storeA", "/mnt/a", "host-a"⟩

/-- A complete caller-supplied metadata record for `bar.uv`. -/
def barInfo : Info :=
  ⟨some 2048, some "d41d8cd98f00b204e9800998ecf8427e", some "uv", some 3, some 99, some 2459000⟩

/-- The file created by the winner of a `resolve` race on `bar.uv`. -/
def winnerFile : File :=
  ⟨"bar.uv", "uv", 100, 99, 2048, "d41d8cd98f00b204e9800998ecf8427e", "site1"⟩

/-- Database state committed by the winner of the race: the file and the
observation it created. -/
def raceDb : DBState := ⟨[winnerFile], [⟨99, 2459000, none, 3⟩], [], [], []⟩

/-- One physical copy of `fooFile` on `storeA`. -/
def fooInstance : FileInstance := ⟨1, "2459000", "foo.uv"⟩

/-- Database with one file, one instance of it, and the store registry. -/
def dbInst : DBState := ⟨[fooFile], [], [fooInstance], [], [storeA]⟩

/-- An event payload whose serialized form is longer than 512 bytes. -/
def bigPayload : List (String × JVal) :=
  [("data", .jstr (String.mk (List.replicate 600 'a')))]

/-- Database holding only an Observation with obsid 42. -/
def dbObs : DBState := ⟨[], [⟨42, 5, none, 6⟩], [], [], []⟩

/-- File fixture with a concrete whole-second creation time. -/
def tzFile : File :=
  ⟨"foo.uv", "uv", 1451606400, 42, 1024, "d41d8cd98f00b204e9800998ecf8427e", "site1"⟩

/-- Database holding exactly `tzFile`. -/
def dbTz : DBState := ⟨[tzFile], [], [], [], []⟩

/-! Helper lemmas about the embedded operations. -/

theorem bool_eq_false {b : Bool} (h : ¬ b = true) : b = false := by
  cases b
  · rfl
  · exact absurd rfl h

@[simp] theorem except_bind_ok {ε α β : Type} (a : α) (f : α → Except ε β) :
    (Except.ok a >>= f : Except ε β) = f a := rfl

@[simp] theorem except_bind_error {ε α β : Type} (e : ε) (f : α → Except ε β) :
    (Except.error e >>= f : Except ε β) = Except.error e := rfl

@[simp] theorem except_pure_eq {ε α : Type} (a : α) :
    (pure a : Except ε α) = Except.ok a := rfl

@[simp] theorem except_throw_eq {ε α : Type} (e : ε) :
    (throw e : Except ε α) = Except.error e := rfl

theorem char_toLower_of_lowerHex (c : Char) (h : isLowerHexDigit c = true) :
    Char.toLower c = c := by
  have h' : (48 ≤ c.toNat ∧ c.toNat ≤ 57) ∨ (97 ≤ c.toNat ∧ c.toNat ≤ 102) := by
    simpa [isLowerHexDigit] using h
  simp only [Char.toLower]
  rw [if_neg (by omega)]

theorem str_lower_of_lowerHex (s : String) (h : s.data.all isLowerHexDigit = true) :
    str_lower s = s := by
  have h' : ∀ c ∈ s.data, Char.toLower c = c := by
    intro c hc
    exact char_toLower_of_lowerHex c (by simpa using List.all_eq_true.mp h c hc)
  cases s with
  | mk data =>
    simp only [str_lower]
    congr 1
    calc data.map Char.toLower = data.map id := List.map_congr_left h'
    _ = data := List.map_id data

theorem md5ValidB_str_lower (md5 : String) (h : md5ValidB md5 = true) :
    md5ValidB (str_lower md5) = true := by
  have hall : (str_lower md5).data.all isLowerHexDigit = true := by
    simp only [md5ValidB, Bool.and_eq_true] at h
    exact h.2
  simp only [md5ValidB, str_lower_of_lowerHex _ hall]
  simpa [md5ValidB, Bool.and_eq_true] using h

theorem normalize_eq_ok (md5 : String) (h : md5ValidB md5 = true) :
    normalize_and_validate_md5 md5 = .ok (str_lower md5) := by
  simp [normalize_and_validate_md5, h]

theorem normalize_eq_err (md5 : String) (h : md5ValidB md5 = false) :
    normalize_and_validate_md5 md5 =
      .error (.validation ("illegal MD5 digest \"" ++ md5 ++ "\"")) := by
  simp [normalize_and_validate_md5, h]

theorem validate_eq_ok (f : File) (hs : hasSlash f.name = false)
    (hm : md5ValidB f.md5 = true) (hz : 0 ≤ f.size) :
    File._validate f = .ok () := by
  simp [File._validate, hs, normalize_eq_ok f.md5 hm, hz]

theorem File.init_eq_ok (name ty : String) (obsid : Int) (source : String)
    (size : Int) (md5 : String) (now : Int) (ct? : Option Int)
    (hs : hasSlash name = false) (hm : md5ValidB md5 = true) (hz : 0 ≤ size) :
    File.init name ty obsid source size md5 now ct? =
      .ok ⟨name, ty, ct?.getD now, obsid, size, str_lower md5, source⟩ := by
  have hv : File._validate ⟨name, ty, ct?.getD now, obsid, size, str_lower md5, source⟩ = .ok () :=
    validate_eq_ok _ hs (md5ValidB_str_lower md5 hm) hz
  simp [File.init, normalize_eq_ok md5 hm, hv]

theorem File.init_eq_err_md5 (name ty : String) (obsid : Int) (source : String)
    (size : Int) (md5 : String) (now : Int) (ct? : Option Int)
    (hm : md5ValidB md5 = false) :
    File.init name ty obsid source size md5 now ct? =
      .error (.validation ("illegal MD5 digest \"" ++ md5 ++ "\"")) := by
  simp [File.init, normalize_eq_err md5 hm]

theorem File.init_eq_err_slash (name ty : String) (obsid : Int) (source : String)
    (size : Int) (md5 : String) (now : Int) (ct? : Option Int)
    (hm : md5ValidB md5 = true) (hs : hasSlash name = true) :
    File.init name ty obsid source size md5 now ct? =
      .error (.validation ("illegal file name \"" ++ name ++ "\": names may not contain \"/\"")) := by
  simp [File.init, normalize_eq_ok md5 hm, File._validate, hs]

theorem File.init_eq_err_size (name ty : String) (obsid : Int) (source : String)
    (size : Int) (md5 : String) (now : Int) (ct? : Option Int)
    (hm : md5ValidB md5 = true) (hs : hasSlash name = false) (hz : ¬ 0 ≤ size) :
    File.init name ty obsid source size md5 now ct? =
      .error (.validation ("illegal size " ++ toString size ++ " of file \"" ++ name ++ "\": negative")) := by
  simp [File.init, normalize_eq_ok md5 hm, File._validate, hs,
        normalize_eq_ok _ (md5ValidB_str_lower md5 hm), hz]

theorem register_ok_inv (db : DBState) (name ty : String) (obsid : Int)
    (source : String) (size : Int) (md5 : String) (now : Int) (ct? : Option Int)
    (f : File) (db' : DBState)
    (h : register db name ty obsid source size md5 now ct? = .ok (f, db')) :
    f = ⟨name, ty, ct?.getD now, obsid, size, str_lower md5, source⟩ ∧
      findFile db name = none ∧
      db' = ⟨f :: db.files, db.observations, db.instances, db.events, db.stores⟩ ∧
      md5ValidB md5 = true ∧ hasSlash name = false ∧ 0 ≤ size := by
  by_cases hm : md5ValidB md5 = true
  · by_cases hsl : hasSlash name = true
    · rw [register] at h
      rw [File.init_eq_err_slash name ty obsid source size md5 now ct? hm hsl] at h
      simp at h
    · have hs : hasSlash name = false := bool_eq_false hsl
      by_cases hz : 0 ≤ size
      · rw [register] at h
        rw [File.init_eq_ok name ty obsid source size md5 now ct? hs hm hz] at h
        rw [except_bind_ok] at h
        cases hfind : findFile db name with
        | some g => simp [hfind] at h
        | none =>
          simp only [hfind, Option.isSome_none, Bool.false_eq_true, if_false,
                     except_pure_eq, Except.ok.injEq, Prod.mk.injEq] at h
          obtain ⟨hf, hdb⟩ := h
          exact ⟨hf.symm, rfl, by rw [← hdb, hf], hm, hs, hz⟩
      · rw [register] at h
        rw [File.init_eq_err_size name ty obsid source size md5 now ct? hm hs hz] at h
        simp at h
  · have hm' : md5ValidB md5 = false := bool_eq_false hm
    rw [register] at h
    rw [File.init_eq_err_md5 name ty obsid source size md5 now ct? hm'] at h
    simp at h

/-- C3: `register` fails with a ValidationError exactly when the name contains
a separator character, the md5 does not normalize to a valid 32-hex digest, or
the size is negative; on every valid input with a fresh name it persists and
returns the new File, its md5 normalized to lowercase hex. -/
theorem register_validation_and_success (db : DBState) (name ty : String)
    (obsid : Int) (source : String) (size : Int) (md5 : String) (now : Int)
    (ct? : Option Int) :
    ((∃ msg, register db name ty obsid source size md5 now ct? =
        .error (.validation msg)) ↔
      (hasSlash name = true ∨ md5ValidB md5 = false ∨ size < 0))
    ∧ (hasSlash name = false → md5ValidB md5 = true → 0 ≤ size →
        findFile db name = none →
        register db name ty obsid source size md5 now ct? =
          .ok (⟨name, ty, ct?.getD now, obsid, size, str_lower md5, source⟩,
               ⟨⟨name, ty, ct?.getD now, obsid, size, str_lower md5, source⟩ :: db.files,
                db.observations, db.instances, db.events, db.stores⟩)) := by
  constructor
  · constructor
    · rintro ⟨msg, hmsg⟩
      by_contra hcon
      push_neg at hcon
      obtain ⟨h1, h2, h3⟩ := hcon
      have hs : hasSlash name = false := bool_eq_false h1
      have hm : md5ValidB md5 = true := by
        cases hq : md5ValidB md5
        · exact absurd hq h2
        · rfl
      have hz : 0 ≤ size := by omega
      rw [register] at hmsg
      rw [File.init_eq_ok name ty obsid source size md5 now ct? hs hm hz] at hmsg
      rw [except_bind_ok] at hmsg
      cases hfind : (findFile db name).isSome <;> simp [hfind] at hmsg
    · intro h
      rcases h with h | h | h
      · by_cases hm : md5ValidB md5 = true
        · exact ⟨"illegal file name \"" ++ name ++ "\": names may not contain \"/\"",
            by rw [register, File.init_eq_err_slash name ty obsid source size md5 now ct? hm h,
                   except_bind_error]⟩
        · exact ⟨"illegal MD5 digest \"" ++ md5 ++ "\"",
            by rw [register,
                   File.init_eq_err_md5 name ty obsid source size md5 now ct? (bool_eq_false hm),
                   except_bind_error]⟩
      · exact ⟨"illegal MD5 digest \"" ++ md5 ++ "\"",
          by rw [register, File.init_eq_err_md5 name ty obsid source size md5 now ct? h,
                 except_bind_error]⟩
      · by_cases hm : md5ValidB md5 = true
        · by_cases hsl : hasSlash name = true
          · exact ⟨"illegal file name \"" ++ name ++ "\": names may not contain \"/\"",
              by rw [register,
                     File.init_eq_err_slash name ty obsid source size md5 now ct? hm hsl,
                     except_bind_error]⟩
          · exact ⟨"illegal size " ++ toString size ++ " of file \"" ++ name ++ "\": negative",
              by rw [register, File.init_eq_err_size name ty obsid source size md5 now ct? hm
                       (bool_eq_false hsl) (by omega), except_bind_error]⟩
        · exact ⟨"illegal MD5 digest \"" ++ md5 ++ "\"",
            by rw [register,
                   File.init_eq_err_md5 name ty obsid source size md5 now ct? (bool_eq_false hm),
                   except_bind_error]⟩
  · intro hs hm hz hfind
    rw [register, File.init_eq_ok name ty obsid source size md5 now ct? hs hm hz,
        except_bind_ok]
    simp [hfind]

/-- Witness for C3: a name with a slash is rejected with a ValidationError and
Scenario A of §8 registers with the md5 normalized to lowercase. -/
theorem register_validation_and_success_witness :
    (∃ msg, register db0 "a/b" "uv" 42 "site1" 10 "d41d8cd98f00b204e9800998ecf8427e" 100 none =
        Except.error (.validation msg))
    ∧ register db0 "foo.uv" "uv" 42 "site1" 1024 "D41D8CD98F00B204E9800998ECF8427E" 100 none =
        Except.ok (fooFile, dbFoo) := by
  constructor
  · exact (register_validation_and_success db0 "a/b" "uv" 42 "site1" 10
      "d41d8cd98f00b204e9800998ecf8427e" 100 none).1.mpr (Or.inl (by decide))
  · have h := (register_validation_and_success db0 "foo.uv" "uv" 42 "site1" 1024
      "D41D8CD98F00B204E9800998ECF8427E" 100 none).2 (by decide) (by decide)
      (by decide) (by decide)
    rw [h]
    decide

/-- C4: calling `register` a second time with an already-existing name fails
with a ConflictError, and the record created by the first call is left
unchanged in the database. -/
theorem register_duplicate_conflict (db : DBState) (name ty ty2 : String)
    (obsid obsid2 : Int) (source source2 : String) (size size2 : Int)
    (md5 md5B : String) (now now2 : Int) (ct? ct2? : Option Int)
    (f : File) (db' : DBState)
    (h : register db name ty obsid source size md5 now ct? = .ok (f, db'))
    (hm2 : md5ValidB md5B = true) (hz2 : 0 ≤ size2) :
    (∃ msg, register db' name ty2 obsid2 source2 size2 md5B now2 ct2? =
        .error (.conflict msg))
    ∧ findFile db' name = some f := by
  obtain ⟨hf, _hfresh, hdb', hm, hs, _hz⟩ :=
    register_ok_inv db name ty obsid source size md5 now ct? f db' h
  have hfind' : findFile db' name = some f := by
    rw [hdb']
    show List.find? (fun g => g.name == name) (f :: db.files) = some f
    have hp : (f.name == name) = true := by
      rw [hf]
      exact beq_self_eq_true name
    exact List.find?_cons_of_pos _ hp
  refine ⟨⟨"duplicate key value for file.name: " ++ name, ?_⟩, hfind'⟩
  rw [register, File.init_eq_ok name ty2 obsid2 source2 size2 md5B now2 ct2? hs hm2 hz2,
      except_bind_ok]
  simp [hfind']

/-- Witness for C4: registering `foo.uv` twice conflicts on the second call
and leaves the first record in place. -/
theorem register_duplicate_conflict_witness :
    (∃ msg, register dbFoo "foo.uv" "uv2" 43 "site2" 2
        "aaaaaaaaaaaaaaaaaaaaaaaaaaaaaaaa" 200 none = Except.error (.conflict msg))
    ∧ findFile dbFoo "foo.uv" = some fooFile :=
  register_duplicate_conflict db0 "foo.uv" "uv" "uv2" 42 43 "site1" "site2" 1024 2
    "d41d8cd98f00b204e9800998ecf8427e" "aaaaaaaaaaaaaaaaaaaaaaaaaaaaaaaa" 100 200
    none none fooFile dbFoo (by decide) (by decide) (by decide)

theorem hasSlash_iff (s : String) : hasSlash s = true ↔ '/' ∈ s.data := by
  constructor
  · intro h
    obtain ⟨c, hc, hceq⟩ := List.any_eq_true.mp h
    exact (of_decide_eq_true hceq) ▸ hc
  · intro h
    exact List.any_eq_true.mpr ⟨'/', h, by simp⟩

theorem hasSlash_os_path_basename (p : String) :
    hasSlash (os_path_basename p) = false := by
  apply bool_eq_false
  intro h
  have hmem : '/' ∈ (p.data.reverse.takeWhile (fun c => c ≠ '/')).reverse := by
    have := (hasSlash_iff (os_path_basename p)).mp h
    simpa [os_path_basename] using this
  rw [List.mem_reverse] at hmem
  have := List.mem_takeWhile_imp hmem
  simp at this

/-- C2: `resolve` on a storePath whose basename is already cataloged returns
the existing File with all fields unchanged and the database untouched, and
performs no store metadata query: the result is the same for every
caller-supplied info record and every probe outcome, including ones that
disagree with the stored fields. -/
theorem resolve_existing_returns_unchanged (db : DBState) (store : Store)
    (store_path source_name : String) (info? : Option Info)
    (probe : Except String Info) (now : Int) (prev : File)
    (h : findFile db (os_path_basename store_path) = some prev) :
    File.get_inferring_info db db store store_path source_name info? probe now =
      Except.ok (prev, db) := by
  simp [File.get_inferring_info, h]

/-- Witness for C2: resolving an already-cataloged name returns the stored
record although the supplied info record disagrees with every stored field and
the probe would fail. -/
theorem resolve_existing_returns_unchanged_witness :
    File.get_inferring_info dbFoo dbFoo storeA "/data/foo.uv" "site2"
        (some ⟨some 1, some "ffffffffffffffffffffffffffffffff", some "other",
               some 9, some 7, some 8⟩)
        (Except.error "probe failure") 999 = Except.ok (fooFile, dbFoo) :=
  resolve_existing_returns_unchanged dbFoo storeA "/data/foo.uv" "site2"
    (some ⟨some 1, some "ffffffffffffffffffffffffffffffff", some "other",
           some 9, some 7, some 8⟩)
    (Except.error "probe failure") 999 fooFile (by decide)

/-- C1 amended: under a create/create race on the same unseen storePath the
unique-key constraints make the losing commit fail, so at most one File with
the name is created; but the conflict is not recovered locally — the losing
caller propagates a ConflictError instead of fetching the winner record. -/
theorem resolve_race_loser_errors (dbq dbc : DBState) (store : Store)
    (store_path source_name : String) (sz l oid jd : Int) (m t : String)
    (probe : Except String Info) (now : Int) (w : File)
    (hq : findFile dbq (os_path_basename store_path) = none)
    (hw : findFile dbc (os_path_basename store_path) = some w)
    (hm : md5ValidB m = true) (hz : 0 ≤ sz) :
    ∃ msg, File.get_inferring_info dbq dbc store store_path source_name
        (some ⟨some sz, some m, some t, some l, some oid, some jd⟩) probe now =
      Except.error (.conflict msg) := by
  have hs : hasSlash (os_path_basename store_path) = false :=
    hasSlash_os_path_basename store_path
  cases ho : findObs dbq oid with
  | some o =>
    refine ⟨"duplicate key value for file.name: " ++ os_path_basename store_path, ?_⟩
    simp only [File.get_inferring_info, hq, required_arg, ho, except_bind_ok,
               except_pure_eq]
    rw [File.init_eq_ok _ _ _ _ _ _ _ _ hs hm hz, except_bind_ok]
    simp [hw]
  | none =>
    cases ho2 : (findObs dbc oid).isSome with
    | true =>
      refine ⟨"duplicate key value for observation.obsid: " ++ toString oid, ?_⟩
      simp only [File.get_inferring_info, hq, required_arg, ho, except_bind_ok,
                 except_pure_eq]
      rw [File.init_eq_ok _ _ _ _ _ _ _ _ hs hm hz, except_bind_ok]
      simp [ho2]
    | false =>
      refine ⟨"duplicate key value for file.name: " ++ os_path_basename store_path, ?_⟩
      simp only [File.get_inferring_info, hq, required_arg, ho, except_bind_ok,
                 except_pure_eq]
      rw [File.init_eq_ok _ _ _ _ _ _ _ _ hs hm hz, except_bind_ok]
      simp [ho2, hw]

/-- Witness for the amended C1: a concrete losing caller receives a
ConflictError. -/
theorem resolve_race_loser_errors_witness :
    ∃ msg, File.get_inferring_info db0 raceDb storeA "/data/2459000/bar.uv" "site2"
        (some ⟨some 2048, some "d41d8cd98f00b204e9800998ecf8427e", some "uv",
               some 3, some 99, some 2459000⟩)
        (Except.error "unused") 101 =
      Except.error (.conflict msg) :=
  resolve_race_loser_errors db0 raceDb storeA "/data/2459000/bar.uv" "site2"
    2048 3 99 2459000 "d41d8cd98f00b204e9800998ecf8427e" "uv"
    (Except.error "unused") 101 winnerFile (by decide) (by decide) (by decide) (by decide)

/-- Counterexample to C1 as stated: at this concrete race the losing caller of
`get_inferring_info` propagates a ConflictError — it does not convert the
create/create conflict into a successful fetch of the winner record. -/
theorem resolve_race_recovery_counterexample :
    File.get_inferring_info db0 raceDb storeA "/data/2459000/bar.uv" "site1"
        (some barInfo) (Except.error "unused") 100 =
      Except.error (.conflict "duplicate key value for observation.obsid: 99") := by
  decide

/-- C10: when `resolve` must create a new File from an info record lacking
start_jd, it succeeds when the referenced Observation is already cataloged and
fails with the missing-required-argument failure for start_jd when it is
not. -/
theorem resolve_start_jd_required_iff_obs_missing (db : DBState) (store : Store)
    (store_path source_name : String) (sz l oid : Int) (m t : String)
    (probe : Except String Info) (now : Int)
    (hq : findFile db (os_path_basename store_path) = none)
    (hm : md5ValidB m = true) (hz : 0 ≤ sz) :
    (∀ o, findObs db oid = some o →
      File.get_inferring_info db db store store_path source_name
          (some ⟨some sz, some m, some t, some l, some oid, none⟩) probe now =
        Except.ok
          (⟨os_path_basename store_path, t, now, oid, sz, str_lower m, source_name⟩,
           ⟨⟨os_path_basename store_path, t, now, oid, sz, str_lower m, source_name⟩ :: db.files,
            db.observations, db.instances, db.events, db.stores⟩))
    ∧ (findObs db oid = none →
        File.get_inferring_info db db store store_path source_name
            (some ⟨some sz, some m, some t, some l, some oid, none⟩) probe now =
          Except.error (.missingArg "start_jd")) := by
  have hs : hasSlash (os_path_basename store_path) = false :=
    hasSlash_os_path_basename store_path
  constructor
  · intro o ho
    simp only [File.get_inferring_info, hq, required_arg, ho, except_bind_ok,
               except_pure_eq]
    rw [File.init_eq_ok _ _ _ _ _ _ _ _ hs hm hz, except_bind_ok]
    simp [hq]
  · intro ho
    simp [File.get_inferring_info, hq, required_arg, ho]

/-- Witness for C10: with Observation 42 cataloged an info record without
start_jd resolves successfully; against an empty catalog the same call fails
demanding start_jd. -/
theorem resolve_start_jd_required_iff_obs_missing_witness :
    File.get_inferring_info dbObs dbObs storeA "/d/foo.uv" "site1"
        (some ⟨some 1024, some "d41d8cd98f00b204e9800998ecf8427e", some "uv",
               some 7, some 42, none⟩)
        (Except.error "unused") 100 =
      Except.ok (fooFile, ⟨[fooFile], [⟨42, 5, none, 6⟩], [], [], []⟩)
    ∧ File.get_inferring_info db0 db0 storeA "/d/foo.uv" "site1"
        (some ⟨some 1024, some "d41d8cd98f00b204e9800998ecf8427e", some "uv",
               some 7, some 42, none⟩)
        (Except.error "unused") 100 = Except.error (.missingArg "start_jd") := by
  constructor
  · have h := (resolve_start_jd_required_iff_obs_missing dbObs storeA "/d/foo.uv"
      "site1" 1024 7 42 "d41d8cd98f00b204e9800998ecf8427e" "uv"
      (Except.error "unused") 100 (by decide) (by decide) (by decide)).1
      ⟨42, 5, none, 6⟩ (by decide)
    rw [h]
    decide
  · exact (resolve_start_jd_required_iff_obs_missing db0 storeA "/d/foo.uv"
      "site1" 1024 7 42 "d41d8cd98f00b204e9800998ecf8427e" "uv"
      (Except.error "unused") 100 (by decide) (by decide) (by decide)).2 (by decide)

/-- C9: the name validation of the File, FileInstance and FileEvent
constructors rejects exactly the names containing the slash character; every
other name — the empty string, names with backslashes or dot-dot included —
is accepted given otherwise valid fields. -/
theorem name_validation_slash_only (name ty : String) (obsid : Int)
    (source : String) (size : Int) (md5 : String) (now : Int) (ct? : Option Int)
    (st : Store) (pd : String) (payload : List (String × JVal))
    (hm : md5ValidB md5 = true) (hz : 0 ≤ size) :
    ((∃ f, File.init name ty obsid source size md5 now ct? = Except.ok f) ↔
      ¬ '/' ∈ name.data)
    ∧ ((∃ i, FileInstance.init st pd name = Except.ok i) ↔ ¬ '/' ∈ name.data)
    ∧ ((∃ e, FileEvent.init name ty payload now = Except.ok e) ↔ ¬ '/' ∈ name.data) := by
  refine ⟨⟨?_, ?_⟩, ⟨?_, ?_⟩, ⟨?_, ?_⟩⟩
  · rintro ⟨f, hf⟩ hmem
    have hsl : hasSlash name = true := (hasSlash_iff name).mpr hmem
    rw [File.init_eq_err_slash name ty obsid source size md5 now ct? hm hsl] at hf
    exact Except.noConfusion hf
  · intro hmem
    have hs : hasSlash name = false := by
      apply bool_eq_false
      intro hsl
      exact hmem ((hasSlash_iff name).mp hsl)
    exact ⟨_, File.init_eq_ok name ty obsid source size md5 now ct? hs hm hz⟩
  · rintro ⟨i, hi⟩ hmem
    have hsl : hasSlash name = true := (hasSlash_iff name).mpr hmem
    rw [FileInstance.init, hsl] at hi
    exact Except.noConfusion hi
  · intro hmem
    have hs : hasSlash name = false := by
      apply bool_eq_false
      intro hsl
      exact hmem ((hasSlash_iff name).mp hsl)
    exact ⟨_, by rw [FileInstance.init, hs]; rfl⟩
  · rintro ⟨e, he⟩ hmem
    have hsl : hasSlash name = true := (hasSlash_iff name).mpr hmem
    rw [FileEvent.init, hsl] at he
    exact Except.noConfusion he
  · intro hmem
    have hs : hasSlash name = false := by
      apply bool_eq_false
      intro hsl
      exact hmem ((hasSlash_iff name).mp hsl)
    exact ⟨_, by rw [FileEvent.init, hs]; rfl⟩

/-- Witness for C9: the empty string, a backslash name and dot-dot are
accepted by the three constructors; a slash name is rejected. -/
theorem name_validation_slash_only_witness :
    (∃ f, File.init "" "uv" 1 "s" 0 "d41d8cd98f00b204e9800998ecf8427e" 0 none =
      Except.ok f)
    ∧ (∃ i, FileInstance.init storeA "d" "a\\b" = Except.ok i)
    ∧ (∃ e, FileEvent.init ".." "t" [] 0 = Except.ok e)
    ∧ ¬ (∃ f, File.init "a/b" "uv" 1 "s" 0 "d41d8cd98f00b204e9800998ecf8427e" 0 none =
          Except.ok f) := by
  refine ⟨?_, ?_, ?_, ?_⟩
  · exact (name_validation_slash_only "" "uv" 1 "s" 0
      "d41d8cd98f00b204e9800998ecf8427e" 0 none storeA "d" [] (by decide)
      (by decide)).1.mpr (by decide)
  · exact (name_validation_slash_only "a\\b" "uv" 1 "s" 0
      "d41d8cd98f00b204e9800998ecf8427e" 0 none storeA "d" [] (by decide)
      (by decide)).2.1.mpr (by decide)
  · exact (name_validation_slash_only ".." "t" 1 "s" 0
      "d41d8cd98f00b204e9800998ecf8427e" 0 none storeA "d" [] (by decide)
      (by decide)).2.2.mpr (by decide)
  · intro hex
    exact (name_validation_slash_only "a/b" "uv" 1 "s" 0
      "d41d8cd98f00b204e9800998ecf8427e" 0 none storeA "d" [] (by decide)
      (by decide)).1.mp hex (by decide)

/-- C7: locate fails with a NotFoundError for an unknown file name, fails with
a distinct NotFoundError for a known File with zero instances, and for a File
with exactly one instance on a registered store returns the descriptor whose
full path is the store path prefix joined with the parent dirs joined with the
name. -/
theorem locate_file_instance_spec (db : DBState) (fn : String) :
    (findFile db fn = none →
      locate_file_instance db (some fn) =
        Except.error (.notFound ("no known file \"" ++ fn ++ "\"")))
    ∧ (∀ f, findFile db fn = some f →
        db.instances.filter (fun i => i.name == fn) = [] →
        locate_file_instance db (some fn) =
          Except.error (.notFound ("no instances of file \"" ++ fn ++ "\" on this librarian")))
    ∧ (∀ f inst st, findFile db fn = some f →
        db.instances.filter (fun i => i.name == fn) = [inst] →
        findStore db inst.store = some st →
        locate_file_instance db (some fn) =
          Except.ok ⟨os_path_join (os_path_join ( Store.path_prefix st) inst.parent_dirs) inst.name,
                     st.name, os_path_join inst.parent_dirs inst.name, st.ssh_host⟩) := by
  refine ⟨?_, ?_, ?_⟩
  · intro h
    simp [locate_file_instance, required_arg, h]
  · intro f hf hinst
    simp [locate_file_instance, required_arg, hf, hinst]
  · intro f inst st hf hinst hst
    simp [locate_file_instance, required_arg, hf, hinst, hst,
          FileInstance.full_path_on_store, FileInstance.store_path]

/-- Witness for C7: an unknown name, a known file with zero copies, and a
known file with exactly one copy. -/
theorem locate_file_instance_spec_witness :
    locate_file_instance dbInst (some "missing.uv") =
      Except.error (.notFound "no known file \"missing.uv\"")
    ∧ locate_file_instance dbFoo (some "foo.uv") =
        Except.error (.notFound "no instances of file \"foo.uv\" on this librarian")
    ∧ locate_file_instance dbInst (some "foo.uv") =
        Except.ok ⟨"/mnt/a/2459000/foo.uv", "storeA", "2459000/foo.uv", "host-a"⟩ := by
  refine ⟨?_, ?_, ?_⟩
  · exact (locate_file_instance_spec dbInst "missing.uv").1 (by decide)
  · exact (locate_file_instance_spec dbFoo "foo.uv").2.1 fooFile (by decide) (by decide)
  · have h := (locate_file_instance_spec dbInst "foo.uv").2.2 fooFile fooInstance storeA
      (by decide) (by decide) (by decide)
    rw [h]
    decide

/-- C8: createInstance fails with a ValidationError for a name containing a
separator, fails with a NotFoundError for a name with no File record, and
otherwise persists the new FileInstance. -/
theorem createInstance_spec (db : DBState) (st : Store) (pd name : String) :
    (hasSlash name = true →
      ∃ msg, createInstance db st pd name = Except.error (.validation msg))
    ∧ (hasSlash name = false → findFile db name = none →
        ∃ msg, createInstance db st pd name = Except.error (.notFound msg))
    ∧ (hasSlash name = false → (findFile db name).isSome = true →
        db.instances.any (fun i =>
          i.store == st.id && i.parent_dirs == pd && i.name == name) = false →
        createInstance db st pd name =
          Except.ok (⟨st.id, pd, name⟩,
            ⟨db.files, db.observations, ⟨st.id, pd, name⟩ :: db.instances,
             db.events, db.stores⟩)) := by
  refine ⟨?_, ?_, ?_⟩
  · intro hsl
    exact ⟨"illegal file name \"" ++ name ++ "\": names may not contain \"/\"",
      by rw [createInstance, FileInstance.init, hsl]; rfl⟩
  · intro hs hfind
    refine ⟨"no file record named \"" ++ name ++ "\"", ?_⟩
    rw [createInstance, FileInstance.init, hs]
    simp [hfind]
  · intro hs hfind hdup
    have h1 : ¬ findFile db name = none := by
      intro hnone
      rw [hnone] at hfind
      simp at hfind
    have h2 : ¬ ∃ x ∈ db.instances, (x.store = st.id ∧ x.parent_dirs = pd) ∧ x.name = name := by
      rw [List.any_eq_false] at hdup
      rintro ⟨x, hx, ⟨ha, hb⟩, hc⟩
      exact hdup x hx (by simp [ha, hb, hc])
    rw [createInstance, FileInstance.init, hs]
    simp [h1, h2]

/-- Witness for C8: a slash name is rejected, an unknown file name is
rejected, and a valid instance is persisted. -/
theorem createInstance_spec_witness :
    (∃ msg, createInstance dbFoo storeA "d" "a/b" = Except.error (.validation msg))
    ∧ (∃ msg, createInstance db0 storeA "d" "foo.uv" = Except.error (.notFound msg))
    ∧ createInstance dbFoo storeA "2459000" "foo.uv" =
        Except.ok (fooInstance, ⟨[fooFile], [], [fooInstance], [], []⟩) := by
  refine ⟨?_, ?_, ?_⟩
  · exact (createInstance_spec dbFoo storeA "d" "a/b").1 (by decide)
  · exact (createInstance_spec db0 storeA "d" "foo.uv").2.1 (by decide) (by decide)
  · have h := (createInstance_spec dbFoo storeA "2459000" "foo.uv").2.2
      (by decide) (by decide) (by decide)
    rw [h]
    decide

/-- C5 is a code bug: `to_dict` emits the creation time through the
UTC-interpreting `calendar.timegm`, while `from_dict` reconstructs it through
the local-time `datetime.datetime.fromtimestamp`. On a host whose UTC offset
is 3600 seconds the round trip of a File created by `register` shifts
`create_time` by 3600 while `source` is taken from the explicit argument; the
round trip is exact only at offset zero. -/
theorem to_from_dict_roundtrip_shifts_off_utc :
    register db0 "foo.uv" "uv" 42 "site1" 1024
        "d41d8cd98f00b204e9800998ecf8427e" 1451606400 none =
      Except.ok (tzFile, dbTz)
    ∧ File.from_dict 0 "site2" (File.to_dict tzFile) =
        Except.ok ⟨"foo.uv", "uv", 1451606400, 42, 1024,
                   "d41d8cd98f00b204e9800998ecf8427e", "site2"⟩
    ∧ File.from_dict 3600 "site2" (File.to_dict tzFile) =
        Except.ok ⟨"foo.uv", "uv", 1451610000, 42, 1024,
                   "d41d8cd98f00b204e9800998ecf8427e", "site2"⟩
    ∧ (1451610000 : Int) ≠ tzFile.create_time := by
  exact ⟨by decide, by decide, by decide, by decide⟩

set_option maxRecDepth 8000 in
/-- C6 is a code bug: no code path checks the documented 512-byte payload cap.
This event payload serializes to 612 bytes, yet `create_file_event` accepts it
and persists the event. -/
theorem append_cap_unenforced :
    512 < (json_dumps bigPayload).length
    ∧ create_file_event dbFoo ⟨some "foo.uv", some "flagged", some bigPayload⟩ 200 =
        Except.ok ⟨[fooFile], [], [], [⟨"foo.uv", 200, "flagged", json_dumps bigPayload⟩], []⟩ := by
  exact ⟨by decide, by decide⟩

end Librarian
